import Mathlib

/- Shallow embedding of the Feedback Prioritization & Risk Analytics Engine of
the citizen-feedback repository: the class AdvancedAnalytics in
src/advanced_analytics.py and the class RecommendationEngine in
src/ai/recommendation_engine.py.  Python floats are modelled as rationals,
pandas timestamps as rational seconds since the epoch, and missing values
(NaN, NaT, absent dictionary keys) as Option.  The np.random.random() draws
consumed by the simulated metrics are modelled as an explicit stream
rand : Nat -> Rat passed to the functions that consume them. -/

/-! ## Data model (spec section 3, as consumed by the source) -/

inductive Status where
  | New
  | InReview
  | InProgress
  | Resolved
  | Closed
deriving DecidableEq, Repr

inductive Urgency where
  | Low
  | Medium
  | High
  | Critical
deriving DecidableEq, Repr

inductive Sentiment where
  | Positive
  | Neutral
  | Negative
deriving DecidableEq, Repr

/-- One feedback ticket as the analytics engine reads it.  createdAt is the
parsed timestamp column in seconds; none models an unparsable value, that is
NaT after pd.to_datetime(..., errors="coerce").  urgency and sentiment are
none when the cell is missing (NaN). -/
structure Ticket where
  id : String
  createdAt : Option ℚ
  status : Status
  urgency : Option Urgency
  category : String
  area : Option String
  sentiment : Option Sentiment
deriving DecidableEq, Repr

/-- Mean of a list of rationals, `l.sum / len(l)`; the empty list gives 0
(the source always guards against empty input before taking a mean). -/
def listMean (l : List ℚ) : ℚ := l.sum / (l.length : ℚ)

/-! ## SLARiskEngine: AdvancedAnalytics.predict_sla_breaches
(src/advanced_analytics.py lines 114-196) -/

/-- self.sla_config (lines 26-31), SLA target hours per urgency. -/
def sla_config : Urgency → ℚ
  | .Critical => 4
  | .High => 24
  | .Medium => 72
  | .Low => 168

/-- open_tickets["urgency"].map(self.sla_config).fillna(72), line 149: an
unknown or missing urgency falls back to 72, the Medium target. -/
def slaHours : Option Urgency → ℚ
  | some u => sla_config u
  | none => 72

/-- open_statuses = ["New", "In Review", "In Progress"], line 131. -/
def isOpenStatus : Status → Bool
  | .New => true
  | .InReview => true
  | .InProgress => true
  | _ => false

/-- df_copy[df_copy["status"].isin(open_statuses)], line 132. -/
def openTickets (ts : List Ticket) : List Ticket :=
  ts.filter (fun t => isOpenStatus t.status)

/-- Hours elapsed, (now - open_tickets["timestamp"]).dt.total_seconds() / 3600, line 146;
none when the timestamp is NaT. -/
def hoursElapsed (now : ℚ) (t : Ticket) : Option ℚ :=
  t.createdAt.map (fun c => (now - c) / 3600)

/-- open_tickets["sla_hours"] - open_tickets["hours_elapsed"], line 152. -/
def hoursRemaining (now : ℚ) (t : Ticket) : Option ℚ :=
  (hoursElapsed now t).map (fun e => slaHours t.urgency - e)

/-- Row mask of line 155, open_tickets["hours_remaining"] < 0.  A NaT
timestamp propagates to NaN and a NaN comparison is False in pandas. -/
def breachedMask (now : ℚ) (t : Ticket) : Bool :=
  match hoursRemaining now t with
  | some hr => decide (hr < 0)
  | none => false

/-- Row mask of lines 156-157,
(hours_remaining >= 0) & (hours_remaining < sla_hours * 0.2). -/
def atRiskMask (now : ℚ) (t : Ticket) : Bool :=
  match hoursRemaining now t with
  | some hr => decide (0 ≤ hr) && decide (hr < slaHours t.urgency * (2/10))
  | none => false

/-- breached = open_tickets[open_tickets["hours_remaining"] < 0], line 155. -/
def breachedTickets (now : ℚ) (ts : List Ticket) : List Ticket :=
  (openTickets ts).filter (breachedMask now)

/-- at_risk of lines 156-157. -/
def atRiskTickets (now : ℚ) (ts : List Ticket) : List Ticket :=
  (openTickets ts).filter (atRiskMask now)

inductive SLAClass where
  | OnTrack
  | AtRisk
  | Breached
deriving DecidableEq, Repr

/-- RiskAssessment.classification: the partition the engine effects on an
open ticket through the two masks above (an open ticket caught by neither
mask is on track). -/
def classification (now : ℚ) (t : Ticket) : SLAClass :=
  if breachedMask now t then .Breached
  else if atRiskMask now t then .AtRisk
  else .OnTrack

/-- urgency_factor with default 0.5, reached through
ticket.get("urgency", "Medium") followed by .get(urgency, 0.5)
(_calculate_breach_probability, lines 470-471). -/
def urgencyMult : Option Urgency → ℚ
  | some .Critical => 9/10
  | some .High => 3/4
  | some .Medium => 1/2
  | some .Low => 3/10
  | none => 1/2

/-- AdvancedAnalytics._calculate_breach_probability (lines 460-476) applied
to a row carrying hours_remaining and sla_hours. -/
def breachProbability (hr sla : ℚ) (u : Option Urgency) : ℚ :=
  let tf := 1 - hr / sla
  let tfc := max 0 (min 1 tf)
  min 1 (tfc * (7/10) + urgencyMult u * (3/10))

/-! ## AdvancedAnalytics._calculate_sla_performance (lines 435-458)
The compliance of each resolved ticket is decided by comparing a fresh
np.random.random() draw against a per-urgency probability; the draws are the
explicit stream rand. -/

/-- urgency_compliance (line 445) looked up with .get(urgency, 0.85); a
missing urgency cell is NaN, which misses the dictionary and yields 0.85. -/
def urgencyComplianceProb : Option Urgency → ℚ
  | some .Low => 19/20
  | some .Medium => 22/25
  | some .High => 3/4
  | some .Critical => 13/20
  | none => 17/20

/-- Python round(x, 1).  Python rounds half to even; modelled as round half
up, which agrees on every value these computations reach (no exact half at
the rounded digit arises from them). -/
def round1 (q : ℚ) : ℚ := ((round (q * 10) : ℤ) : ℚ) / 10

/-- Models _calculate_sla_performance: the pair (compliant percent, breached
percent); the i-th resolved ticket consumes the draw rand i (lines 447-451). -/
def slaPerformance (resolved : List Ticket) (rand : ℕ → ℚ) : ℚ × ℚ :=
  if resolved.isEmpty then (0, 0)
  else
    let total := resolved.length
    let compliant := resolved.enum.countP
      (fun p => decide (rand p.1 < urgencyComplianceProb p.2.urgency))
    let breached := total - compliant
    (round1 ((compliant : ℚ) / (total : ℚ) * 100),
     round1 ((breached : ℚ) / (total : ℚ) * 100))

/-! ## TrendAnalyzer: AdvancedAnalytics._simple_forecast (lines 394-423) -/

/-- One bucket of the resampled count series: (timestamp of the bucket in
seconds, count). -/
structure SeriesPoint where
  label : ℚ
  value : ℕ
deriving DecidableEq, Repr

/-- One forecast entry: extrapolated bucket timestamp and predicted count. -/
structure ForecastPoint where
  period : ℚ
  predictedValue : ℤ
deriving DecidableEq, Repr

/-- AdvancedAnalytics._simple_forecast: empty when the series has fewer than
3 points (line 396); otherwise the moving average of the last
window = min(3, len) = 3 buckets (series.rolling(window).mean().iloc[-1]),
rounded with round(_, 0), repeated periods times, with labels extrapolated by
freq = index[-1] - index[-2] (lines 407-421).  Matching on the reversed
series exposes the last three points. -/
def simple_forecast (series : List SeriesPoint) (periods : ℕ) : List ForecastPoint :=
  match series.reverse with
  | a :: b :: c :: _ =>
    let movingAvg : ℚ := ((a.value : ℚ) + (b.value : ℚ) + (c.value : ℚ)) / 3
    let freq := a.label - b.label
    (List.range periods).map
      (fun (i : ℕ) =>
        { period := a.label + freq * ((i : ℚ) + 1), predictedValue := round movingAvg })
  | _ => []

/-- Stated from the spec wording: the simple moving average over the last
min(3, series_length) buckets. -/
def lastBucketsMean (series : List SeriesPoint) : ℚ :=
  let w := min 3 series.length
  (((series.reverse.take w).map (fun p => (p.value : ℚ))).sum) / (w : ℚ)

/-! ## HotspotRanker: AdvancedAnalytics.analyze_geospatial_distribution
(lines 198-258).  The source rounds the displayed fields with round(_, 2)
and round(_, 1) while building the output dictionaries; the embedding keeps
the exact rationals that those floats approximate. -/

/-- urgency_weights = Low 1, Medium 2, High 3, Critical 4 (line 224). -/
def urgencyWeightVal : Urgency → ℚ
  | .Low => 1
  | .Medium => 2
  | .High => 3
  | .Critical => 4

/-- area_data = df_copy[df_copy["area"] == area] (line 222). -/
def areaTickets (ts : List Ticket) (a : String) : List Ticket :=
  ts.filter (fun t => t.area == some a)

/-- The mapped urgency weights of a group of tickets; a missing urgency maps
to NaN and is skipped by the pandas mean (line 225). -/
def urgencyWeights (l : List Ticket) : List ℚ :=
  l.filterMap (fun t => t.urgency.map urgencyWeightVal)

/-- area_data["urgency"].map(urgency_weights).mean() (line 225). -/
def avgUrgencyWeight (l : List Ticket) : ℚ := listMean (urgencyWeights l)

/-- Number of tickets of the group whose sentiment is Negative (line 229). -/
def negCount (l : List Ticket) : ℕ :=
  l.countP (fun t => t.sentiment == some .Negative)

/-- neg_pct = (area_data["sentiment"] == "Negative").sum() / len(area_data) * 100
(line 229). -/
def negativePct (l : List Ticket) : ℚ :=
  (negCount l : ℚ) / (l.length : ℚ) * 100

/-- hotspot_score = len(area_data) * avg_urgency * (1 + sentiment_score / 100)
(line 232). -/
def hotspotScore (l : List Ticket) : ℚ :=
  (l.length : ℚ) * avgUrgencyWeight l * (1 + negativePct l / 100)

/-- One entry of location_hotspots (lines 234-240). -/
structure Hotspot where
  area : String
  count : ℕ
  avgUrgency : ℚ
  negativeSentimentPct : ℚ
  score : ℚ
deriving DecidableEq, Repr

def hotspotFor (ts : List Ticket) (a : String) : Hotspot :=
  let l := areaTickets ts a
  { area := a, count := l.length, avgUrgency := avgUrgencyWeight l,
    negativeSentimentPct := negativePct l, score := hotspotScore l }

/-- df_copy["area"].dropna().unique() (line 221): the distinct area labels in
order of first occurrence. -/
def areasOf (ts : List Ticket) : List String :=
  (ts.filterMap (fun t => t.area)).foldl
    (fun acc a => if a ∈ acc then acc else acc ++ [a]) []

/-- The descending-score comparison used by
sorted(location_hotspots, key=lambda x: x["hotspot_score"], reverse=True)
(line 243). -/
def hotspotRel (x y : Hotspot) : Prop := y.score ≤ x.score

instance : DecidableRel hotspotRel :=
  fun x y => inferInstanceAs (Decidable (y.score ≤ x.score))

instance : IsTotal Hotspot hotspotRel := ⟨fun a b => le_total b.score a.score⟩

instance : IsTrans Hotspot hotspotRel := ⟨fun _ _ _ h1 h2 => le_trans h2 h1⟩

/-- location_hotspots: one record per distinct area, sorted by score
descending (python sorted is a stable sort, modelled by insertion sort, also
stable) and truncated with [:10] (line 243). -/
def locationHotspots (ts : List Ticket) : List Hotspot :=
  (List.insertionSort hotspotRel ((areasOf ts).map (hotspotFor ts))).take 10

/-! ## DepartmentScorer: AdvancedAnalytics.analyze_department_performance
(lines 260-334) and its helpers (lines 524-597). -/

/-- self.department_mapping (lines 34-47) combined with the
fillna("General") fallback of line 274. -/
def departmentOf (category : String) : String :=
  if category = "Roads & Transportation" then "Infrastructure"
  else if category = "Water & Sanitation" then "Utilities"
  else if category = "Public Safety" then "Safety"
  else if category = "Healthcare" then "Health"
  else if category = "Education" then "Education"
  else if category = "Environment" then "Environment"
  else if category = "Street Lighting" then "Infrastructure"
  else if category = "Waste Management" then "Environment"
  else if category = "Parks & Recreation" then "Environment"
  else if category = "Building Permits" then "Administration"
  else if category = "Tax & Revenue" then "Administration"
  else if category = "Other" then "General"
  else "General"

/-- dept_data = df_copy[df_copy["department"] == dept] (line 279). -/
def deptTickets (ts : List Ticket) (dept : String) : List Ticket :=
  ts.filter (fun t => departmentOf t.category == dept)

/-- status isin ["Resolved", "Closed"] (line 283). -/
def isResolvedStatus : Status → Bool
  | .Resolved => true
  | .Closed => true
  | _ => false

/-- resolution_rate = resolved / total * 100 if total > 0 else 0 (line 284). -/
def resolutionRate (dept : List Ticket) : ℚ :=
  let total := dept.length
  let resolved := (dept.filter (fun t => isResolvedStatus t.status)).length
  if 0 < total then (resolved : ℚ) / (total : ℚ) * 100 else 0

/-- Models _calculate_satisfaction_score (lines 524-537) applied to the sentiment
distribution built from value_counts (lines 287-290): weighted score with
positive 100, neutral 50, negative 0, and 50.0 when there is no sentiment
data. -/
def satisfactionScore (dept : List Ticket) : ℚ :=
  let p := dept.countP (fun t => t.sentiment == some .Positive)
  let neu := dept.countP (fun t => t.sentiment == some .Neutral)
  let neg := dept.countP (fun t => t.sentiment == some .Negative)
  let total := p + neu + neg
  if total = 0 then 50
  else ((p : ℚ) * 100 + (neu : ℚ) * 50 + (neg : ℚ) * 0) / (total : ℚ)

/-- urgency_times (line 545) looked up through ticket.get("urgency","Medium")
then .get(urgency, 48); both a missing cell (NaN) and the explicit Medium
default land on 48. -/
def urgencyBaseTime : Option Urgency → ℚ
  | some .Critical => 6
  | some .High => 24
  | some .Medium => 48
  | some .Low => 96
  | none => 48

/-- Models _calculate_avg_response_time (lines 539-554): each ticket gets a
simulated time base * (0.8 + np.random.random() * 0.4); the i-th ticket of
the department consumes the draw rand i. -/
def avgResponseTime (dept : List Ticket) (rand : ℕ → ℚ) : ℚ :=
  if dept.isEmpty then 0
  else listMean (dept.enum.map
    (fun p => urgencyBaseTime p.2.urgency * (4/5 + rand p.1 * (2/5))))

/-- Models _calculate_dept_sla_compliance (lines 556-574): 0 for an empty
department, 50 when no ticket is resolved, otherwise the mean of the
per-urgency compliance probabilities of the resolved tickets times 100. -/
def deptSlaCompliance (dept : List Ticket) : ℚ :=
  if dept.isEmpty then 0
  else
    let resolved := dept.filter (fun t => isResolvedStatus t.status)
    if resolved.length = 0 then 50
    else listMean (resolved.map (fun t => urgencyComplianceProb t.urgency)) * 100

/-- performance_score (lines 301-306). -/
def performanceScore (dept : List Ticket) (rand : ℕ → ℚ) : ℚ :=
  resolutionRate dept * (3/10) +
  satisfactionScore dept * (3/10) +
  deptSlaCompliance dept * (1/4) +
  (100 - min (avgResponseTime dept rand / 24 * 10) 100) * (3/20)

/-- dept_df.dropna(subset=["timestamp"]) (line 582): the tickets whose
timestamp parses. -/
def parsable (dept : List Ticket) : List Ticket :=
  dept.filter (fun t => t.createdAt.isSome)

/-- Models _calculate_dept_trend (lines 576-597): drop unparsable timestamps, split
the remaining rows at midpoint = len // 2, and compare the two half counts
against the 1.15 and 0.85 thresholds. -/
def deptTrend (dept : List Ticket) : String :=
  if dept.length < 2 then "stable"
  else
    let p := parsable dept
    if p.length < 2 then "stable"
    else
      let midpoint := p.length / 2
      let older := p.take midpoint
      let recent := p.drop midpoint
      if ((recent.length : ℚ)) > ((older.length : ℚ)) * (23/20) then "increasing"
      else if ((recent.length : ℚ)) < ((older.length : ℚ)) * (17/20) then "decreasing"
      else "stable"

/-- Sort key for the chronological ordering of a department, on tickets
already known to have a parsable timestamp. -/
def tsKey (t : Ticket) : ℚ := t.createdAt.getD 0

/-- Stated from the spec wording: the department tickets with parsable
timestamps in chronological order. -/
def chronological (dept : List Ticket) : List Ticket :=
  List.insertionSort (fun a b => tsKey a ≤ tsKey b) (parsable dept)

/-- Stated from the spec wording: split the department tickets
chronologically in half; increasing when the recent half count exceeds 1.15
times the older half count, decreasing when below 0.85 times, else stable;
stable when fewer than 2 tickets have parsable timestamps. -/
def deptTrendSpec (dept : List Ticket) : String :=
  let p := chronological dept
  if p.length < 2 then "stable"
  else
    let older := p.take (p.length / 2)
    let recent := p.drop (p.length / 2)
    if ((recent.length : ℚ)) > ((older.length : ℚ)) * (23/20) then "increasing"
    else if ((recent.length : ℚ)) < ((older.length : ℚ)) * (17/20) then "decreasing"
    else "stable"

/-! ## RecommendationAggregator:
RecommendationEngine._generate_unified_recommendations
(src/ai/recommendation_engine.py lines 119-240).  The analysis dictionary
built by analyze_feedback_comprehensive is modelled field by field: each
optional entry of analysis["analyses"] is an Option carrying the value the
generator actually reads out of it. -/

/-- The slice of analysis the generator reads.  priorityML is present iff
"priority_ml" is a key of analysis["analyses"], and carries the value of
.get("predicted_priority", "Medium"); sentimentLabel likewise for "nlp" and
.get("sentiment", "Neutral"); breachProb for "sla_prediction" and
.get("breach_probability", 0); similarCount for "similar_feedback" and the
length of the list; llmDepartment for a truthy suggested_department of
"complex_classification"; nlpCategory for the nested category label of the
nlp result.  confidenceScores holds the values of
analysis["confidence_scores"], booleans read as 0 or 1. -/
structure Analysis where
  priorityML : Option String
  sentimentLabel : Option String
  breachProb : Option ℚ
  similarCount : Option ℕ
  llmDepartment : Option String
  nlpCategory : Option String
  confidenceScores : List ℚ
deriving DecidableEq, Repr

/-- The unified recommendation record (lines 121-130 give the defaults). -/
structure Recommendation where
  priorityLevel : String
  urgencyAction : String
  departmentSuggestions : List String
  estimatedResolutionTime : String
  actionItems : List String
  riskLevel : String
  similarCases : ℕ
  confidenceLevel : String
deriving DecidableEq, Repr

/-- priority_map = Low 1, Medium 2, High 3, Critical 4 with .get default 2
(lines 138-139). -/
def priorityMapGet (s : String) : ℚ :=
  if s = "Low" then 1
  else if s = "Medium" then 2
  else if s = "High" then 3
  else if s = "Critical" then 4
  else 2

/-- priority_scores collection (lines 133-157): the ML vote when priority_ml
is present, the sentiment vote (Negative 3, Positive 1, otherwise none) when
nlp is present, and the breach-probability vote (above 0.7 gives 4, above
0.4 gives 3) when sla_prediction is present. -/
def priorityVotes (a : Analysis) : List ℚ :=
  (match a.priorityML with
   | some p => [priorityMapGet p]
   | none => []) ++
  (match a.sentimentLabel with
   | some s => if s = "Negative" then [3] else if s = "Positive" then [1] else []
   | none => []) ++
  (match a.breachProb with
   | some bp => if bp > 7/10 then [4] else if bp > 4/10 then [3] else []
   | none => [])

/-- risk_level: default "Low" (line 127), overwritten inside the
sla_prediction branch (lines 150-157). -/
def riskLevelOf (a : Analysis) : String :=
  match a.breachProb with
  | some bp => if bp > 7/10 then "High" else if bp > 4/10 then "Medium" else "Low"
  | none => "Low"

/-- category_dept_map (lines 183-192). -/
def categoryDeptMap (c : String) : Option String :=
  if c = "Infrastructure" then some "Public Works"
  else if c = "Transportation" then some "Transportation"
  else if c = "Healthcare" then some "Health Department"
  else if c = "Education" then some "Education Department"
  else if c = "Environment" then some "Environmental Services"
  else if c = "Safety" then some "Public Safety"
  else if c = "Utilities" then some "Public Utilities"
  else if c = "Housing" then some "Housing Authority"
  else none

/-- time_estimates (lines 202-207) with the .get default "3-5 business days"
(line 208). -/
def timeEstimatesGet (s : String) : String :=
  if s = "Critical" then "1-2 business days"
  else if s = "High" then "2-3 business days"
  else if s = "Medium" then "3-5 business days"
  else if s = "Low" then "1-2 weeks"
  else "3-5 business days"

/-- A python set built by successive .add calls, modelled as the insertion
order list of its distinct elements. -/
def dedupKeepFirst (l : List String) : List String :=
  l.foldl (fun acc a => if a ∈ acc then acc else acc ++ [a]) []

/-- RecommendationEngine._generate_unified_recommendations (lines 119-240),
field by field in the order the source assigns them. -/
def generate_unified_recommendations (a : Analysis) : Recommendation :=
  let priorityScores := priorityVotes a
  let risk := riskLevelOf a
  -- lines 159-172: the final priority; with no votes the defaults of lines
  -- 122-123 survive, and the avg >= 1.5 branch leaves urgency_action at its
  -- default "Standard processing"
  let pu : String × String :=
    if priorityScores.isEmpty then ("Medium", "Standard processing")
    else
      let avg := priorityScores.sum / (priorityScores.length : ℚ)
      if avg ≥ 7/2 then ("Critical", "Immediate attention required")
      else if avg ≥ 5/2 then ("High", "Expedited processing")
      else if avg ≥ 3/2 then ("Medium", "Standard processing")
      else ("Low", "Standard processing")
  -- lines 174-198: department suggestions
  let departments := dedupKeepFirst
    ((match a.llmDepartment with | some d => [d] | none => []) ++
     (match a.nlpCategory with
      | some c => (match categoryDeptMap c with | some d => [d] | none => [])
      | none => []))
  -- lines 200-208: the estimate is keyed by the ML-predicted priority
  let est := timeEstimatesGet (match a.priorityML with | some p => p | none => "Medium")
  -- lines 210-227: action items
  let actions :=
    (if pu.1 = "Critical" ∨ pu.1 = "High" then
      ["Assign dedicated staff immediately", "Schedule follow-up within 24 hours"]
     else []) ++
    (if risk = "High" then
      ["Monitor SLA compliance closely", "Prepare escalation procedures"]
     else []) ++
    (match a.similarCount with
     | some n => if n > 2 then [s!"Review {n} similar cases for systemic issues"] else []
     | none => [])
  -- lines 229-238: confidence bucket; an empty score dictionary gives 0.5
  let avgConfidence := if a.confidenceScores.isEmpty then 1/2 else listMean a.confidenceScores
  let conf :=
    if avgConfidence > 4/5 then "High"
    else if avgConfidence > 3/5 then "Medium"
    else "Low"
  { priorityLevel := pu.1, urgencyAction := pu.2,
    departmentSuggestions := departments, estimatedResolutionTime := est,
    actionItems := actions, riskLevel := risk,
    similarCases := (match a.similarCount with | some n => n | none => 0),
    confidenceLevel := conf }

/-- Stated from the spec wording: the average-vote to priority_level
thresholds. -/
def priorityFromAverage (avg : ℚ) : String :=
  if avg ≥ 7/2 then "Critical"
  else if avg ≥ 5/2 then "High"
  else if avg ≥ 3/2 then "Medium"
  else "Low"

/-! ## Helper lemmas -/

lemma sum_le_length_mul (l : List ℚ) (b : ℚ) (h : ∀ x ∈ l, x ≤ b) :
    l.sum ≤ (l.length : ℚ) * b := by
  induction l with
  | nil => simp
  | cons x xs ih =>
    have hx : x ≤ b := h x (List.mem_cons_self x xs)
    have hxs : xs.sum ≤ (xs.length : ℚ) * b :=
      ih (fun y hy => h y (List.mem_cons_of_mem x hy))
    have hring : ((xs.length : ℚ) + 1) * b = (xs.length : ℚ) * b + b := by ring
    simp only [List.sum_cons, List.length_cons]
    push_cast
    linarith

lemma length_mul_le_sum (l : List ℚ) (a : ℚ) (h : ∀ x ∈ l, a ≤ x) :
    (l.length : ℚ) * a ≤ l.sum := by
  induction l with
  | nil => simp
  | cons x xs ih =>
    have hx : a ≤ x := h x (List.mem_cons_self x xs)
    have hxs : (xs.length : ℚ) * a ≤ xs.sum :=
      ih (fun y hy => h y (List.mem_cons_of_mem x hy))
    have hring : ((xs.length : ℚ) + 1) * a = (xs.length : ℚ) * a + a := by ring
    simp only [List.sum_cons, List.length_cons]
    push_cast
    linarith

lemma listMean_le (l : List ℚ) (b : ℚ) (hne : l ≠ []) (h : ∀ x ∈ l, x ≤ b) :
    listMean l ≤ b := by
  have hlen : 0 < (l.length : ℚ) := by exact_mod_cast List.length_pos.mpr hne
  rw [listMean, div_le_iff hlen]
  exact (sum_le_length_mul l b h).trans_eq (mul_comm _ _)

lemma le_listMean (l : List ℚ) (a : ℚ) (hne : l ≠ []) (h : ∀ x ∈ l, a ≤ x) :
    a ≤ listMean l := by
  have hlen : 0 < (l.length : ℚ) := by exact_mod_cast List.length_pos.mpr hne
  rw [listMean, le_div_iff hlen]
  exact (mul_comm a _).le.trans (length_mul_le_sum l a h)

lemma listMean_nonneg (l : List ℚ) (h : ∀ x ∈ l, 0 ≤ x) : 0 ≤ listMean l := by
  cases l with
  | nil => simp [listMean]
  | cons x xs => exact le_listMean _ 0 (List.cons_ne_nil x xs) h

lemma slaHours_pos (u : Option Urgency) : 0 < slaHours u := by
  cases u with
  | none => norm_num [slaHours]
  | some v => cases v <;> norm_num [slaHours, sla_config]

lemma urgencyMult_bounds (u : Option Urgency) :
    3/10 ≤ urgencyMult u ∧ urgencyMult u ≤ 9/10 := by
  cases u with
  | none => norm_num [urgencyMult]
  | some v => cases v <;> norm_num [urgencyMult]

/-! ## Claim theorems -/

/-- C1: for every ticket with status in the open set (New, In Review,
In Progress) and a parsable timestamp, with hours_elapsed = (now - created)
in hours, sla_target = slaHours(urgency) (the Medium target 72 when urgency
is unknown) and hours_remaining = sla_target - hours_elapsed, the engine
classifies the ticket Breached iff hours_remaining < 0, AtRisk iff
0 <= hours_remaining < 0.2 * sla_target, and OnTrack otherwise (iff
hours_remaining >= 0.2 * sla_target). -/
theorem sla_classification_thresholds (now c : ℚ) (ts : List Ticket) (t : Ticket)
    (hmem : t ∈ ts) (hopen : isOpenStatus t.status = true) (hc : t.createdAt = some c) :
    (t ∈ breachedTickets now ts ↔ slaHours t.urgency - (now - c) / 3600 < 0) ∧
    (t ∈ atRiskTickets now ts ↔
      0 ≤ slaHours t.urgency - (now - c) / 3600 ∧
      slaHours t.urgency - (now - c) / 3600 < slaHours t.urgency * (2/10)) ∧
    (classification now t = SLAClass.OnTrack ↔
      slaHours t.urgency * (2/10) ≤ slaHours t.urgency - (now - c) / 3600) := by
  have hrm : hoursRemaining now t = some (slaHours t.urgency - (now - c) / 3600) := by
    simp [hoursRemaining, hoursElapsed, hc]
  have hopen2 : t ∈ openTickets ts := List.mem_filter.mpr ⟨hmem, hopen⟩
  have hb : breachedMask now t = decide (slaHours t.urgency - (now - c) / 3600 < 0) := by
    simp [breachedMask, hrm]
  have ha : atRiskMask now t =
      (decide (0 ≤ slaHours t.urgency - (now - c) / 3600) &&
       decide (slaHours t.urgency - (now - c) / 3600 < slaHours t.urgency * (2/10))) := by
    simp [atRiskMask, hrm]
  refine ⟨?_, ?_, ?_⟩
  · rw [breachedTickets, List.mem_filter]
    simp [hopen2, hb]
  · rw [atRiskTickets, List.mem_filter]
    simp [hopen2, ha]
  · have hpos : 0 < slaHours t.urgency * (2/10) := by
      have := slaHours_pos t.urgency
      nlinarith
    constructor
    · intro hcl
      by_contra hlt
      push_neg at hlt
      rcases lt_or_le (slaHours t.urgency - (now - c) / 3600) 0 with h0 | h0
      · simp [classification, hb, ha, h0] at hcl
      · simp [classification, hb, ha, not_lt.mpr h0, h0, hlt] at hcl
    · intro hge
      have h0 : ¬ slaHours t.urgency - (now - c) / 3600 < 0 := by linarith
      have h2 : ¬ slaHours t.urgency - (now - c) / 3600 < slaHours t.urgency * (2/10) :=
        not_lt.mpr hge
      simp [classification, hb, ha, h0, h2]

/-- Witness for C1: a Critical ticket created 100 hours before now (target 4
hours, hours_remaining = -96) lands in the breached list. -/
theorem sla_classification_thresholds_witness :
    (⟨"t1", some 0, Status.New, some Urgency.Critical, "Other", none, none⟩ : Ticket) ∈
      breachedTickets 360000
        [⟨"t1", some 0, Status.New, some Urgency.Critical, "Other", none, none⟩] :=
  ((sla_classification_thresholds 360000 0
      [⟨"t1", some 0, Status.New, some Urgency.Critical, "Other", none, none⟩]
      ⟨"t1", some 0, Status.New, some Urgency.Critical, "Other", none, none⟩
      (by simp) rfl rfl).1).mpr
    (by norm_num [slaHours, sla_config])

/-- C5: for fixed urgency and fixed positive SLA target, the breach
probability is monotonically non-decreasing in hours_elapsed (here
hours_remaining = sla - elapsed) and always lies in [0, 1]. -/
theorem breach_probability_monotone_and_bounded (u : Option Urgency) (sla : ℚ)
    (hsla : 0 < sla) (e1 e2 : ℚ) (he : e1 ≤ e2) :
    breachProbability (sla - e1) sla u ≤ breachProbability (sla - e2) sla u ∧
    0 ≤ breachProbability (sla - e1) sla u ∧
    breachProbability (sla - e1) sla u ≤ 1 := by
  have hm := urgencyMult_bounds u
  have hdiv : (sla - e2) / sla ≤ (sla - e1) / sla :=
    (div_le_div_right hsla).mpr (by linarith)
  refine ⟨?_, ?_, ?_⟩
  · simp only [breachProbability]
    have h1 : 1 - (sla - e1) / sla ≤ 1 - (sla - e2) / sla := by linarith
    have h2 : max 0 (min 1 (1 - (sla - e1) / sla)) ≤
        max 0 (min 1 (1 - (sla - e2) / sla)) :=
      max_le_max le_rfl (min_le_min le_rfl h1)
    apply min_le_min le_rfl
    have := mul_le_mul_of_nonneg_right h2 (by norm_num : (0:ℚ) ≤ 7/10)
    linarith
  · simp only [breachProbability]
    apply le_min (by norm_num)
    have htf : (0:ℚ) ≤ max 0 (min 1 (1 - (sla - e1) / sla)) := le_max_left 0 _
    nlinarith [hm.1]
  · simp only [breachProbability]
    exact min_le_left 1 _

/-- Witness for C5: Medium urgency, target 72, elapsed 10 then 20 hours. -/
theorem breach_probability_witness :
    breachProbability ((72:ℚ) - 10) 72 (some Urgency.Medium) ≤
      breachProbability ((72:ℚ) - 20) 72 (some Urgency.Medium) ∧
    0 ≤ breachProbability ((72:ℚ) - 10) 72 (some Urgency.Medium) ∧
    breachProbability ((72:ℚ) - 10) 72 (some Urgency.Medium) ≤ 1 :=
  breach_probability_monotone_and_bounded (some Urgency.Medium) 72 (by norm_num) 10 20
    (by norm_num)

/-- C2: the historical SLA compliance and the average response time are NOT
functions of the ticket collection alone: on the same single resolved
Medium ticket, the compliant/breached percentages are (100, 0) for one
np.random stream and (0, 100) for another (the Medium draw threshold is
0.88), and the simulated average response time also changes with the
stream.  The source never reads a resolved_at timestamp. -/
theorem historical_metrics_depend_on_random_stream :
    slaPerformance
        [⟨"r1", some 0, Status.Resolved, some Urgency.Medium, "Other", none, none⟩]
        (fun _ => 1/2) = (100, 0) ∧
    slaPerformance
        [⟨"r1", some 0, Status.Resolved, some Urgency.Medium, "Other", none, none⟩]
        (fun _ => 9/10) = (0, 100) ∧
    avgResponseTime
        [⟨"r1", some 0, Status.Resolved, some Urgency.Medium, "Other", none, none⟩]
        (fun _ => 0) ≠
      avgResponseTime
        [⟨"r1", some 0, Status.Resolved, some Urgency.Medium, "Other", none, none⟩]
        (fun _ => 1/2) := by
  refine ⟨?_, ?_, ?_⟩ <;>
    norm_num [slaPerformance, avgResponseTime, listMean, urgencyComplianceProb,
      urgencyBaseTime, round1, round_eq, List.enum, List.enumFrom,
      List.countP_cons, List.countP_nil, Prod.ext_iff]

/-- Counterexample for C6: a bucket series of length 2 yields an empty
forecast, not one of the requested length 4. -/
theorem short_series_yields_empty_forecast :
    simple_forecast [⟨0, 5⟩, ⟨7, 7⟩] 4 = [] ∧
    (simple_forecast [⟨0, 5⟩, ⟨7, 7⟩] 4).length ≠ 4 :=
  ⟨rfl, by decide⟩

lemma simple_forecast_eq (series : List SeriesPoint) (a b c : SeriesPoint)
    (rest : List SeriesPoint) (periods : ℕ) (hrev : series.reverse = a :: b :: c :: rest) :
    simple_forecast series periods = (List.range periods).map
      (fun (i : ℕ) => ⟨a.label + (a.label - b.label) * ((i : ℚ) + 1),
        round (((a.value : ℚ) + (b.value : ℚ) + (c.value : ℚ)) / 3)⟩) := by
  unfold simple_forecast
  rw [hrev]

lemma lastBucketsMean_eq (series : List SeriesPoint) (a b c : SeriesPoint)
    (rest : List SeriesPoint) (hrev : series.reverse = a :: b :: c :: rest) :
    lastBucketsMean series = ((a.value : ℚ) + (b.value : ℚ) + (c.value : ℚ)) / 3 := by
  have hl : series.length = rest.length + 3 := by
    rw [← List.length_reverse series, hrev]
    simp only [List.length_cons]
  have hw : min 3 series.length = 3 := by omega
  unfold lastBucketsMean
  rw [hw, hrev]
  have htake : List.take 3 (a :: b :: c :: rest) = [a, b, c] := rfl
  simp only [htake, List.map_cons, List.map_nil, List.sum_cons, List.sum_nil]
  ring

/-- C6 amended: for a bucket series with at least 3 buckets, the forecast
has exactly the requested number of periods and every entry predicts the
rounded simple moving average of the last min(3, length) = 3 buckets; for a
series with fewer than 3 buckets the forecast is empty. -/
theorem forecast_moving_average (series : List SeriesPoint) (periods : ℕ) :
    (3 ≤ series.length →
      (simple_forecast series periods).length = periods ∧
      ∀ f ∈ simple_forecast series periods,
        f.predictedValue = round (lastBucketsMean series)) ∧
    (series.length < 3 → simple_forecast series periods = []) := by
  have hlen : series.length = series.reverse.length := (List.length_reverse series).symm
  rcases hrev : series.reverse with _ | ⟨a, _ | ⟨b, _ | ⟨c, rest⟩⟩⟩
  · rw [hrev] at hlen
    refine ⟨fun h3 =>
      absurd h3 (by simp only [List.length_nil, List.length_cons] at hlen; omega),
      fun _ => ?_⟩
    unfold simple_forecast
    rw [hrev]
  · rw [hrev] at hlen
    refine ⟨fun h3 =>
      absurd h3 (by simp only [List.length_nil, List.length_cons] at hlen; omega),
      fun _ => ?_⟩
    unfold simple_forecast
    rw [hrev]
  · rw [hrev] at hlen
    refine ⟨fun h3 =>
      absurd h3 (by simp only [List.length_nil, List.length_cons] at hlen; omega),
      fun _ => ?_⟩
    unfold simple_forecast
    rw [hrev]
  · have h3 : ¬ series.length < 3 := by
      rw [hrev] at hlen
      simp only [List.length_cons] at hlen
      omega
    refine ⟨fun _ => ?_, fun hlt => absurd hlt h3⟩
    rw [simple_forecast_eq series a b c rest periods hrev,
      lastBucketsMean_eq series a b c rest hrev]
    constructor
    · rw [List.length_map, List.length_range]
    · intro f hf
      rcases List.mem_map.mp hf with ⟨i, _, hfi⟩
      rw [← hfi]

/-- Witness for C6 amended: a length-3 series produces 4 forecast points. -/
theorem forecast_moving_average_witness :
    (simple_forecast [⟨0, 1⟩, ⟨7, 2⟩, ⟨14, 3⟩] 4).length = 4 :=
  ((forecast_moving_average [⟨0, 1⟩, ⟨7, 2⟩, ⟨14, 3⟩] 4).1 (by simp)).1

lemma urgencyComplianceProb_bounds (u : Option Urgency) :
    13/20 ≤ urgencyComplianceProb u ∧ urgencyComplianceProb u ≤ 19/20 := by
  cases u with
  | none => norm_num [urgencyComplianceProb]
  | some v => cases v <;> norm_num [urgencyComplianceProb]

lemma urgencyBaseTime_pos (u : Option Urgency) : 0 < urgencyBaseTime u := by
  cases u with
  | none => norm_num [urgencyBaseTime]
  | some v => cases v <;> norm_num [urgencyBaseTime]

lemma resolutionRate_bounds (l : List Ticket) :
    0 ≤ resolutionRate l ∧ resolutionRate l ≤ 100 := by
  simp only [resolutionRate]
  split_ifs with h
  · have hfl : ((l.filter (fun t => isResolvedStatus t.status)).length : ℚ) ≤
        (l.length : ℚ) := by exact_mod_cast List.length_filter_le _ l
    have hlen : 0 < (l.length : ℚ) := by exact_mod_cast h
    have hq : ((l.filter (fun t => isResolvedStatus t.status)).length : ℚ) /
        (l.length : ℚ) ≤ 1 := (div_le_one hlen).mpr hfl
    have hq0 : 0 ≤ ((l.filter (fun t => isResolvedStatus t.status)).length : ℚ) /
        (l.length : ℚ) := div_nonneg (Nat.cast_nonneg _) hlen.le
    constructor <;> nlinarith
  · norm_num

lemma satisfactionScore_bounds (l : List Ticket) :
    0 ≤ satisfactionScore l ∧ satisfactionScore l ≤ 100 := by
  simp only [satisfactionScore]
  split_ifs with h
  · norm_num
  · have htot : 0 < ((l.countP (fun t => t.sentiment == some Sentiment.Positive) +
        l.countP (fun t => t.sentiment == some Sentiment.Neutral) +
        l.countP (fun t => t.sentiment == some Sentiment.Negative) : ℕ) : ℚ) := by
      exact_mod_cast Nat.pos_of_ne_zero h
    constructor
    · apply div_nonneg _ htot.le
      positivity
    · rw [div_le_iff htot]
      push_cast
      have c1 : (0:ℚ) ≤ (l.countP (fun t => t.sentiment == some Sentiment.Neutral) : ℚ) :=
        Nat.cast_nonneg _
      have c2 : (0:ℚ) ≤ (l.countP (fun t => t.sentiment == some Sentiment.Negative) : ℚ) :=
        Nat.cast_nonneg _
      linarith

lemma deptSlaCompliance_bounds (l : List Ticket) :
    0 ≤ deptSlaCompliance l ∧ deptSlaCompliance l ≤ 100 := by
  simp only [deptSlaCompliance]
  split_ifs with h1 h2
  · norm_num
  · norm_num
  · have hne : l.filter (fun t => isResolvedStatus t.status) ≠ [] := by
      intro hnil
      exact h2 (by rw [hnil]; rfl)
    have hmapne : (l.filter (fun t => isResolvedStatus t.status)).map
        (fun t => urgencyComplianceProb t.urgency) ≠ [] := by
      simpa using hne
    have hlo : 13/20 ≤ listMean ((l.filter (fun t => isResolvedStatus t.status)).map
        (fun t => urgencyComplianceProb t.urgency)) := by
      apply le_listMean _ _ hmapne
      intro x hx
      rcases List.mem_map.mp hx with ⟨t, _, rfl⟩
      exact (urgencyComplianceProb_bounds t.urgency).1
    have hhi : listMean ((l.filter (fun t => isResolvedStatus t.status)).map
        (fun t => urgencyComplianceProb t.urgency)) ≤ 19/20 := by
      apply listMean_le _ _ hmapne
      intro x hx
      rcases List.mem_map.mp hx with ⟨t, _, rfl⟩
      exact (urgencyComplianceProb_bounds t.urgency).2
    constructor <;> nlinarith

lemma avgResponseTime_nonneg (l : List Ticket) (rand : ℕ → ℚ)
    (h : ∀ i, 0 ≤ rand i) : 0 ≤ avgResponseTime l rand := by
  simp only [avgResponseTime]
  split_ifs with he
  · exact le_rfl
  · apply listMean_nonneg
    intro x hx
    rcases List.mem_map.mp hx with ⟨pr, _, rfl⟩
    have h1 := (urgencyBaseTime_pos pr.2.urgency).le
    have h2 : (0:ℚ) ≤ 4/5 + rand pr.1 * (2/5) := by nlinarith [h pr.1]
    exact mul_nonneg h1 h2

/-- C4: for every ticket collection and every department grouping drawn from
it, the composite performance_score
resolution_rate * 0.3 + satisfaction * 0.3 + sla_compliance * 0.25 +
(100 - min(avg_response_hours / 24 * 10, 100)) * 0.15 lies in [0, 100]
(for any nonnegative stream of np.random draws). -/
theorem performance_score_in_range (ts : List Ticket) (dept : String) (rand : ℕ → ℚ)
    (hrand : ∀ i, 0 ≤ rand i) :
    0 ≤ performanceScore (deptTickets ts dept) rand ∧
    performanceScore (deptTickets ts dept) rand ≤ 100 := by
  have h1 := resolutionRate_bounds (deptTickets ts dept)
  have h2 := satisfactionScore_bounds (deptTickets ts dept)
  have h3 := deptSlaCompliance_bounds (deptTickets ts dept)
  have h4 := avgResponseTime_nonneg (deptTickets ts dept) rand hrand
  simp only [performanceScore]
  have hm1 : min (avgResponseTime (deptTickets ts dept) rand / 24 * 10) 100 ≤ 100 :=
    min_le_right _ _
  have hm0 : 0 ≤ min (avgResponseTime (deptTickets ts dept) rand / 24 * 10) 100 := by
    apply le_min _ (by norm_num)
    nlinarith
  constructor <;> nlinarith [h1.1, h1.2, h2.1, h2.2, h3.1, h3.2]

/-- Witness for C4: a one-ticket department under a constant 0.5 stream. -/
theorem performance_score_witness :
    0 ≤ performanceScore
        (deptTickets
          [⟨"d1", some 0, Status.Resolved, some Urgency.High, "Other", none,
            some Sentiment.Positive⟩] "General") (fun _ => 1/2) ∧
    performanceScore
        (deptTickets
          [⟨"d1", some 0, Status.Resolved, some Urgency.High, "Other", none,
            some Sentiment.Positive⟩] "General") (fun _ => 1/2) ≤ 100 :=
  performance_score_in_range
    [⟨"d1", some 0, Status.Resolved, some Urgency.High, "Other", none,
      some Sentiment.Positive⟩] "General" (fun _ => 1/2) (fun _ => by norm_num)

/-- The verdict the halved counts produce; both the source split and the
chronological split of the spec feed it halves of size n - n/2 and n/2. -/
def halvesVerdict (n : ℕ) : String :=
  if ((n - n / 2 : ℕ) : ℚ) > ((n / 2 : ℕ) : ℚ) * (23/20) then "increasing"
  else if ((n - n / 2 : ℕ) : ℚ) < ((n / 2 : ℕ) : ℚ) * (17/20) then "decreasing"
  else "stable"

/-- C7: the department trend of the source equals the trend obtained by
splitting the parsable-timestamp tickets chronologically in half and
comparing the recent half count against 1.15 respectively 0.85 times the
older half count; with fewer than 2 parsable tickets the trend is stable. -/
theorem dept_trend_matches_chronological_split (dept : List Ticket) :
    deptTrend dept = deptTrendSpec dept ∧
    ((parsable dept).length < 2 → deptTrend dept = "stable") := by
  have hlen : (chronological dept).length = (parsable dept).length :=
    (List.perm_insertionSort _ (parsable dept)).length_eq
  have hminC : (chronological dept).length / 2 ⊓ (chronological dept).length =
      (chronological dept).length / 2 := min_eq_left (Nat.div_le_self _ _)
  have hminP : (parsable dept).length / 2 ⊓ (parsable dept).length =
      (parsable dept).length / 2 := min_eq_left (Nat.div_le_self _ _)
  have hspec : deptTrendSpec dept =
      if (parsable dept).length < 2 then "stable"
      else halvesVerdict (parsable dept).length := by
    simp only [deptTrendSpec, halvesVerdict, List.length_drop, List.length_take,
      hminC, hlen, hminP]
  have hcode : deptTrend dept =
      if dept.length < 2 then "stable"
      else if (parsable dept).length < 2 then "stable"
      else halvesVerdict (parsable dept).length := by
    simp only [deptTrend, halvesVerdict, List.length_drop, List.length_take, hminP]
  constructor
  · rw [hcode, hspec]
    by_cases h1 : dept.length < 2
    · have h2 : (parsable dept).length < 2 :=
        lt_of_le_of_lt (List.length_filter_le _ _) h1
      simp [h1, h2]
    · simp [h1]
  · intro h2
    rw [hcode]
    by_cases h1 : dept.length < 2 <;> simp [h1, h2]

/-- Witness for C7: the empty department has trend stable. -/
theorem dept_trend_witness : deptTrend ([] : List Ticket) = "stable" :=
  (dept_trend_matches_chronological_split []).2 (by simp [parsable])

lemma urgencyWeights_length (l : List Ticket)
    (h : ∀ t ∈ l, t.urgency.isSome = true) :
    (urgencyWeights l).length = l.length := by
  unfold urgencyWeights
  induction l with
  | nil => rfl
  | cons x xs ih =>
    rcases Option.isSome_iff_exists.mp (h x (List.mem_cons_self x xs)) with ⟨u, hu⟩
    rw [List.filterMap_cons, hu]
    show (urgencyWeightVal u ::
      List.filterMap (fun t => Option.map urgencyWeightVal t.urgency) xs).length =
      xs.length + 1
    rw [List.length_cons, ih (fun t ht => h t (List.mem_cons_of_mem x ht))]

/-- C8: the hotspot of every area present in the collection carries
score = count * avg_urgency_weight * (1 + negative_fraction), with the
average weight the mean of Low 1 / Medium 2 / High 3 / Critical 4 over the
area tickets and the negative fraction the share of Negative-sentiment
tickets (stated for areas whose tickets all carry an urgency, the data
model); the output list holds at most 10 areas sorted by score descending. -/
theorem hotspot_score_formula_and_ranking (ts : List Ticket) :
    (locationHotspots ts).length ≤ 10 ∧
    (locationHotspots ts).Sorted hotspotRel ∧
    ∀ a ∈ areasOf ts, (∀ t ∈ areaTickets ts a, t.urgency.isSome = true) →
      (hotspotFor ts a).score =
        ((areaTickets ts a).length : ℚ) *
          ((urgencyWeights (areaTickets ts a)).sum / ((areaTickets ts a).length : ℚ)) *
          (1 + ((negCount (areaTickets ts a)) : ℚ) / ((areaTickets ts a).length : ℚ)) := by
  refine ⟨?_, ?_, ?_⟩
  · simp only [locationHotspots, List.length_take]
    omega
  · have hs := List.sorted_insertionSort hotspotRel ((areasOf ts).map (hotspotFor ts))
    exact List.Pairwise.sublist (List.take_sublist _ _) hs
  · intro a _ hu
    simp only [hotspotFor, hotspotScore, avgUrgencyWeight, negativePct, listMean]
    rw [urgencyWeights_length _ hu]
    ring

/-- Witness for C8: a one-ticket area. -/
theorem hotspot_score_witness :
    (hotspotFor
        [⟨"h1", some 0, Status.New, some Urgency.High, "Other", some "Ward 1",
          some Sentiment.Negative⟩] "Ward 1").score =
      ((areaTickets
          [⟨"h1", some 0, Status.New, some Urgency.High, "Other", some "Ward 1",
            some Sentiment.Negative⟩] "Ward 1").length : ℚ) *
        ((urgencyWeights (areaTickets
            [⟨"h1", some 0, Status.New, some Urgency.High, "Other", some "Ward 1",
              some Sentiment.Negative⟩] "Ward 1")).sum /
          ((areaTickets
              [⟨"h1", some 0, Status.New, some Urgency.High, "Other", some "Ward 1",
                some Sentiment.Negative⟩] "Ward 1").length : ℚ)) *
        (1 + ((negCount (areaTickets
              [⟨"h1", some 0, Status.New, some Urgency.High, "Other", some "Ward 1",
                some Sentiment.Negative⟩] "Ward 1")) : ℚ) /
          ((areaTickets
              [⟨"h1", some 0, Status.New, some Urgency.High, "Other", some "Ward 1",
                some Sentiment.Negative⟩] "Ward 1").length : ℚ)) :=
  (hotspot_score_formula_and_ranking
      [⟨"h1", some 0, Status.New, some Urgency.High, "Other", some "Ward 1",
        some Sentiment.Negative⟩]).2.2 "Ward 1" (by decide) (by decide)

/-- C3: when at least one priority vote was collected (ML priority if
present, Negative sentiment giving 3 and Positive giving 1, breach
probability above 0.7 giving 4 and above 0.4 giving 3), priority_level is
the thresholded average of the collected votes, and risk_level is High iff
the breach probability exceeds 0.7, Medium iff it exceeds 0.4, else Low. -/
theorem unified_priority_and_risk (a : Analysis) (hv : priorityVotes a ≠ []) :
    (generate_unified_recommendations a).priorityLevel =
      priorityFromAverage ((priorityVotes a).sum / ((priorityVotes a).length : ℚ)) ∧
    (generate_unified_recommendations a).riskLevel =
      (match a.breachProb with
       | some bp => if bp > 7/10 then "High" else if bp > 4/10 then "Medium" else "Low"
       | none => "Low") := by
  have hne : (priorityVotes a).isEmpty = false := by
    simpa [List.isEmpty_iff] using hv
  constructor
  · simp only [generate_unified_recommendations, hne, Bool.false_eq_true, if_false,
      priorityFromAverage]
    split_ifs <;> rfl
  · rfl

/-- Witness for C3: a lone ML High vote yields the thresholded average. -/
theorem unified_priority_and_risk_witness :
    (generate_unified_recommendations
        ⟨some "High", none, none, none, none, none, []⟩).priorityLevel =
      priorityFromAverage
        ((priorityVotes ⟨some "High", none, none, none, none, none, []⟩).sum /
          ((priorityVotes ⟨some "High", none, none, none, none, none, []⟩).length : ℚ)) ∧
    (generate_unified_recommendations
        ⟨some "High", none, none, none, none, none, []⟩).riskLevel =
      (match (⟨some "High", none, none, none, none, none, []⟩ : Analysis).breachProb with
       | some bp => if bp > 7/10 then "High" else if bp > 4/10 then "Medium" else "Low"
       | none => "Low") :=
  unified_priority_and_risk ⟨some "High", none, none, none, none, none, []⟩
    (by simp [priorityVotes])

/-- Counterexample for C9: two analyses whose final priority_level is both
High receive different estimated resolution times, because the source keys
the estimate on the ML-predicted priority (line 201), not on the final
priority_level.  The first analysis has ML priority Low, Negative sentiment
and breach probability 0.8 (votes 1, 3, 4, average 8/3, so final priority
High) and gets the Low-keyed estimate. -/
theorem resolution_time_ignores_final_priority :
    (generate_unified_recommendations
        ⟨some "Low", some "Negative", some (8/10), none, none, none, []⟩).priorityLevel =
      "High" ∧
    (generate_unified_recommendations
        ⟨some "High", none, none, none, none, none, []⟩).priorityLevel = "High" ∧
    (generate_unified_recommendations
        ⟨some "Low", some "Negative", some (8/10), none, none, none,
          []⟩).estimatedResolutionTime = "1-2 weeks" ∧
    (generate_unified_recommendations
        ⟨some "High", none, none, none, none, none, []⟩).estimatedResolutionTime =
      "2-3 business days" := by
  refine ⟨?_, ?_, ?_, ?_⟩ <;>
    · simp [generate_unified_recommendations, priorityVotes, priorityMapGet,
        riskLevelOf, timeEstimatesGet, listMean]
      try norm_num

/-- C9 amended: estimated_resolution_time is the lookup table keyed by the
ML-predicted priority signal (with the Medium default when the signal is
absent); two analyses with the same ML-predicted priority get the same
estimate. -/
theorem resolution_time_from_ml_priority (a b : Analysis)
    (h : a.priorityML = b.priorityML) :
    (generate_unified_recommendations a).estimatedResolutionTime =
      timeEstimatesGet (a.priorityML.getD "Medium") ∧
    (generate_unified_recommendations a).estimatedResolutionTime =
      (generate_unified_recommendations b).estimatedResolutionTime := by
  have hchar : ∀ x : Analysis,
      (generate_unified_recommendations x).estimatedResolutionTime =
        timeEstimatesGet (x.priorityML.getD "Medium") := by
    intro x
    cases hx : x.priorityML <;>
      simp [generate_unified_recommendations, hx, Option.getD]
  exact ⟨hchar a, by rw [hchar a, hchar b, h]⟩

/-- Witness for C9 amended. -/
theorem resolution_time_from_ml_priority_witness :
    (generate_unified_recommendations
        ⟨some "High", none, none, none, none, none, []⟩).estimatedResolutionTime =
      timeEstimatesGet
        ((⟨some "High", none, none, none, none, none, []⟩ : Analysis).priorityML.getD
          "Medium") :=
  (resolution_time_from_ml_priority ⟨some "High", none, none, none, none, none, []⟩
    ⟨some "High", none, none, none, none, none, []⟩ rfl).1

/-- C10: with every optional signal absent the generator returns exactly the
documented defaults: priority Medium, risk Low, estimate 3-5 business days,
no action items, and (average presence 0.5, not above 0.6) confidence Low. -/
theorem all_signals_absent_defaults :
    generate_unified_recommendations ⟨none, none, none, none, none, none, []⟩ =
      { priorityLevel := "Medium", urgencyAction := "Standard processing",
        departmentSuggestions := [], estimatedResolutionTime := "3-5 business days",
        actionItems := [], riskLevel := "Low", similarCases := 0,
        confidenceLevel := "Low" } := by
  simp [generate_unified_recommendations, priorityVotes, riskLevelOf,
    timeEstimatesGet, dedupKeepFirst, listMean, Recommendation.mk.injEq]
  norm_num
